import Mathlib

/-!
Shallow embedding of the media-streaming core of app.py (a Flask video
upload/stream/delete application).  Python strings are modelled as
List Char, byte blobs as List Nat, the JSON metadata document and the
upload directory as association lists threaded through each operation.
Route handlers that raise a Python exception (ValueError, IndexError)
return Except.error; ordinary responses return Except.ok.
-/

/-- Python exception kinds reachable in the modelled handlers. -/
inductive PyErr where
  | valueError
  | indexError
deriving DecidableEq, Repr

/-- Python str.split(sep) with a one-character separator: splits at every
occurrence, keeping empty pieces; the result is always nonempty. -/
def pySplit (sep : Char) : List Char → List (List Char)
  | [] => [[]]
  | c :: rest =>
    let r := pySplit sep rest
    if c = sep then [] :: r
    else
      match r with
      | [] => [[c]]
      | h :: t => (c :: h) :: t

/-- Python subscript l[i] on a list: IndexError when out of bounds. -/
def pyIndex (l : List α) (i : Nat) : Except PyErr α :=
  match l[i]? with
  | some a => Except.ok a
  | none => Except.error PyErr.indexError

/-- Python str.strip() of surrounding whitespace. -/
def pyStripWs (s : List Char) : List Char :=
  ((s.dropWhile Char.isWhitespace).reverse.dropWhile Char.isWhitespace).reverse

/-- Numeric value of a decimal digit character. -/
def charVal (c : Char) : Nat := c.toNat - 48

/-- Value of a nonempty all-digit character list, read in base 10. -/
def decDigitsVal (s : List Char) : Option Nat :=
  if s ≠ [] ∧ s.all Char.isDigit then
    some (s.foldl (fun a c => 10 * a + charVal c) 0)
  else none

/-- Python int(str): strips surrounding whitespace, then an optional single
sign followed by at least one decimal digit; anything else raises
ValueError.  (Digit-group underscores of Python 3.6+ are not modelled;
no input in this development contains them.) -/
def pyInt (s : List Char) : Except PyErr Int :=
  let t := pyStripWs s
  if t.head? = some '+' then
    match decDigitsVal t.tail with
    | some n => Except.ok (n : Int)
    | none => Except.error PyErr.valueError
  else if t.head? = some '-' then
    match decDigitsVal t.tail with
    | some n => Except.ok (-(n : Int))
    | none => Except.error PyErr.valueError
  else
    match decDigitsVal t with
    | some n => Except.ok (n : Int)
    | none => Except.error PyErr.valueError

/-- Python str.rsplit(sep, 1): split once at the last occurrence of sep. -/
def pyRsplit1 (sep : Char) (s : List Char) : List (List Char) :=
  if sep ∈ s then
    let r := s.reverse
    [((r.dropWhile (· ≠ sep)).tail).reverse, (r.takeWhile (· ≠ sep)).reverse]
  else [s]

/-- Python str.split() with no argument: split on whitespace runs,
dropping empty pieces. -/
def pySplitWs (s : List Char) : List (List Char) :=
  (s.splitOnP Char.isWhitespace).filter (· ≠ [])

/-- Python str.strip(chars): remove any of the given characters from both
ends. -/
def pyStripChars (cs : List Char) (s : List Char) : List Char :=
  ((s.dropWhile (· ∈ cs)).reverse.dropWhile (· ∈ cs)).reverse

/-- Decimal digit character for a value below ten. -/
def digitChar (d : Nat) : Char := Char.ofNat (48 + d)

/-- Decimal representation of a natural number, via fuel-bounded division
by ten (the fuel n+1 always suffices, so this computes by kernel
reduction). -/
def natToCharsAux : Nat → Nat → List Char
  | 0, _ => []
  | fuel + 1, n =>
    if n < 10 then [digitChar n]
    else natToCharsAux fuel (n / 10) ++ [digitChar (n % 10)]

/-- Decimal representation of a natural number as characters. -/
def natToChars (n : Nat) : List Char := natToCharsAux (n + 1) n

/-- Decimal representation of a natural number as a string. -/
def natToStr (n : Nat) : String := String.mk (natToChars n)

/-- Decimal representation of an integer as a string, as Python str(int)
renders it inside an f-string. -/
def intToStr (i : Int) : String :=
  if i < 0 then String.mk ('-' :: natToChars i.natAbs)
  else String.mk (natToChars i.toNat)

/-- Bytes of an ASCII response body string. -/
def strBytes (s : String) : List Nat := s.data.map Char.toNat

/-- Body bytes produced by flask.jsonify on a flat dict of strings. -/
def jsonObj (pairs : List (String × String)) : List Nat :=
  strBytes ("\x7b" ++
    String.intercalate ", "
      (pairs.map (fun p => "\"" ++ p.1 ++ "\": \"" ++ p.2 ++ "\"")) ++ "\x7d")

/-- The metadata dict value stored for one video (app.py lines 994-1002). -/
structure VideoRecord where
  id : String
  title : String
  filename : String
  uploaded : String
  size : String
  format : String
  user_id : String
deriving DecidableEq, Repr

/-- An HTTP response: status code, body bytes, and the headers the handler
itself sets (content-type and other framework defaults are not modelled). -/
structure HttpResponse where
  status : Nat
  body : List Nat
  headers : List (String × String)
deriving DecidableEq, Repr

/-- The metadata JSON document: an insertion-ordered dict keyed by video id,
as load_metadata/save_metadata read and write it. -/
abbrev Metadata := List (String × VideoRecord)

/-- The upload directory: stored filename to blob bytes, as the functions
os.path.exists / os.path.getsize / open+read observe it. -/
abbrev Disk := List (String × List Nat)

/-- Server state threaded through the handlers in place of the JSON file
and the upload directory. -/
structure ServerState where
  metadata : Metadata
  disk : Disk
deriving DecidableEq, Repr

/-- Python dict lookup d.get(k) / k in d. -/
def mlookup (m : Metadata) (k : String) : Option VideoRecord :=
  (m.find? (fun p => p.1 == k)).map Prod.snd

/-- Python dict assignment d[k] = v: replaces in place, else appends. -/
def mset (m : Metadata) (k : String) (v : VideoRecord) : Metadata :=
  if m.any (fun p => p.1 == k) then
    m.map (fun p => if p.1 == k then (k, v) else p)
  else m ++ [(k, v)]

/-- Python del d[k] (callers guard on membership first). -/
def mdel (m : Metadata) (k : String) : Metadata :=
  m.filter (fun p => ¬ (p.1 == k))

/-- os.path.exists + open on the upload directory. -/
def dlookup (d : Disk) (k : String) : Option (List Nat) :=
  (d.find? (fun p => p.1 == k)).map Prod.snd

/-- file.save(filepath): write blob bytes at a stored filename. -/
def dset (d : Disk) (k : String) (v : List Nat) : Disk :=
  if d.any (fun p => p.1 == k) then
    d.map (fun p => if p.1 == k then (k, v) else p)
  else d ++ [(k, v)]

/-- os.remove on the upload directory. -/
def ddel (d : Disk) (k : String) : Disk :=
  d.filter (fun p => ¬ (p.1 == k))

/-- users.json reduced to the field the handlers read: user id to display
name (users.get(uid, {}).get(name-key, default)). -/
def ulookup (users : List (String × String)) (uid : String) : Option String :=
  (users.find? (fun p => p.1 == uid)).map Prod.snd

/-- f.seek(start) followed by f.read(length) on blob bytes: a read past the
end yields the available bytes, a negative length reads to end of file.
In the modelled handler start is never negative (the text before the first
dash of the header cannot contain a minus sign). -/
def seekRead (data : List Nat) (start : Int) (length : Int) : List Nat :=
  let rest := data.drop start.toNat
  if length < 0 then rest else rest.take length.toNat

/-- Python string comparison a < b (lexicographic on code points), used by
list.sort through the key function. -/
def pyStrLt : List Char → List Char → Bool
  | [], [] => false
  | [], _ :: _ => true
  | _ :: _, [] => false
  | a :: as, b :: bs =>
    if a.toNat < b.toNat then true
    else if a.toNat = b.toNat then pyStrLt as bs else false

/-- ALLOWED_EXTENSIONS of app.py line 31, lower-case. -/
def ALLOWED_EXTENSIONS : List (List Char) :=
  ["mp4".data, "avi".data, "mov".data, "mkv".data, "webm".data]

/-- allowed_file of app.py lines 33-34. -/
def allowed_file (filename : String) : Bool :=
  '.' ∈ filename.data &&
    ((pyRsplit1 '.' filename.data)[1]?.getD []).map Char.toLower ∈ ALLOWED_EXTENSIONS

/-- Characters kept by the werkzeug secure_filename regex class
[A-Za-z0-9_.-]. -/
def allowedFilenameChar (c : Char) : Bool :=
  ('A' ≤ c && c ≤ 'Z') || ('a' ≤ c && c ≤ 'z') || ('0' ≤ c && c ≤ '9') ||
    c = '_' || c = '.' || c = '-'

/-- werkzeug.utils.secure_filename on POSIX (app.py line 13 imports it;
os.sep is the slash, os.path.altsep is None, and os.name is posix so the
Windows device-name branch never runs).  The leading NFKD-normalize plus
ASCII-encode step maps the input to some ASCII string; it is modelled as
the identity, which only widens the set of inputs the theorems quantify
over.  The remaining steps follow the library source: replace the path
separator by a space, split on whitespace and join with underscores,
delete every character outside [A-Za-z0-9_.-], and strip dots and
underscores from both ends. -/
def secure_filename (s : List Char) : List Char :=
  let s1 := s.map (fun c => if c = '/' then ' ' else c)
  let joined := List.intercalate ['_'] (pySplitWs s1)
  pyStripChars ['.', '_'] (joined.filter allowedFilenameChar)

/-- upload_video of app.py lines 969-1005.  The multipart file part is
modelled as an optional pair of original filename and content bytes;
the two datetime.now() strftime strings and the get_file_size result
(a floating-point-formatted size string, irrelevant to every claim)
enter as parameters since they read the clock and the filesystem. -/
def upload_video (st : ServerState) (session_user : Option String)
    (file : Option (String × List Nat)) (timestamp now_str size_str : String) :
    Except PyErr (ServerState × HttpResponse) :=
  match session_user with
  | none => Except.ok (st, ⟨401, strBytes "Unauthorized", []⟩)
  | some uid =>
    match file with
    | none => Except.ok (st, ⟨400, strBytes "No video file provided", []⟩)
    | some (orig, contents) =>
      if orig = "" then Except.ok (st, ⟨400, strBytes "No file selected", []⟩)
      else if ¬ allowed_file orig then
        Except.ok (st, ⟨400, strBytes "Invalid file type. Allowed: MP4, AVI, MOV, MKV, WEBM", []⟩)
      else
        let filename := String.mk (secure_filename orig.data)
        let unique_filename := uid ++ "_" ++ timestamp ++ "_" ++ filename
        let disk2 := dset st.disk unique_filename contents
        let video_id := unique_filename
        match pyIndex (pyRsplit1 '.' filename.data) 1 with
        | Except.error e => Except.error e
        | Except.ok extChars =>
          let vrec : VideoRecord :=
            ⟨video_id, filename, unique_filename, now_str, size_str,
              String.mk (extChars.map Char.toUpper), uid⟩
          Except.ok (⟨mset st.metadata video_id vrec, disk2⟩,
            ⟨200, jsonObj [("message", "Video uploaded successfully"), ("id", video_id)], []⟩)

/-- A value in one of the JSON objects produced by get_all_videos. -/
inductive JVal where
  | s (v : String)
  | b (v : Bool)
deriving DecidableEq, Repr

/-- The key-value pairs of a stored metadata dict entry, in the insertion
order of upload_video lines 994-1002. -/
def record_pairs (v : VideoRecord) : List (String × JVal) :=
  [("id", JVal.s v.id), ("title", JVal.s v.title), ("filename", JVal.s v.filename),
   ("uploaded", JVal.s v.uploaded), ("size", JVal.s v.size),
   ("format", JVal.s v.format), ("user_id", JVal.s v.user_id)]

/-- One element of the get_all_videos response: video.copy() with
owner_name and is_owner appended (app.py lines 1017-1026). -/
def video_view (users : List (String × String)) (current : String)
    (v : VideoRecord) : List (String × JVal) :=
  record_pairs v ++
    [("owner_name", JVal.s ((ulookup users v.user_id).getD "Unknown User")),
     ("is_owner", JVal.b (v.user_id == current))]

/-- x.get(uploaded-key, empty) used as the sort key at line 1029. -/
def uploadedKey (obj : List (String × JVal)) : List Char :=
  match (obj.find? (fun p => p.1 == "uploaded")).map Prod.snd with
  | some (JVal.s s) => s.data
  | _ => []

/-- get_all_videos of app.py lines 1007-1031: every metadata value is
copied, augmented with owner_name and is_owner, and the list is sorted
stably by upload date, newest first (list.sort with reverse=True). -/
def get_all_videos (st : ServerState) (users : List (String × String))
    (session_user : Option String) : List (List (String × JVal)) :=
  match session_user with
  | none => []
  | some uid =>
    let all_videos := st.metadata.map (fun p => video_view users uid p.2)
    all_videos.mergeSort (fun a b => ! pyStrLt (uploadedKey a) (uploadedKey b))

/-- Modelled from the library call at app.py line 1052: flask.send_file
(Flask 2.0+, as installed by the unpinned pip command in the header
comment) with its default conditional=True returns the whole file with
status 200 and sets Accept-Ranges: bytes through make_conditional.
Content-type and caching headers are not modelled. -/
def send_file (data : List Nat) : HttpResponse :=
  ⟨200, data, [("Accept-Ranges", "bytes")]⟩

/-- Lines 1054-1082 of stream_video: the branch taken when a nonempty
Range header is present.  byte_start defaults to 0 but is always
overwritten by int(header.split(eq)[1].split(dash)[0]); byte_end defaults
to size-1 and is overwritten only when a dash is present and the text
after it is nonempty.  No satisfiability check is performed before the
206 response is built. -/
def rangeResponse (data : List Nat) (hdr : String) : Except PyErr HttpResponse :=
  let size : Int := data.length
  match pyIndex (pySplit '=' hdr.data) 1 with
  | Except.error e => Except.error e
  | Except.ok afterEq =>
    match pyIndex (pySplit '-' afterEq) 0 with
    | Except.error e => Except.error e
    | Except.ok startStr =>
      match pyInt startStr with
      | Except.error e => Except.error e
      | Except.ok byte_start =>
        let endParse : Except PyErr Int :=
          if '-' ∈ afterEq then
            match pyIndex (pySplit '-' afterEq) 1 with
            | Except.error e => Except.error e
            | Except.ok range_end =>
              if range_end ≠ [] then pyInt range_end else Except.ok (size - 1)
          else Except.ok (size - 1)
        match endParse with
        | Except.error e => Except.error e
        | Except.ok byte_end =>
          let length := byte_end - byte_start + 1
          Except.ok ⟨206, seekRead data byte_start length,
            [("Content-Range",
               "bytes " ++ intToStr byte_start ++ "-" ++ intToStr byte_end ++ "/" ++ intToStr size),
             ("Accept-Ranges", "bytes"),
             ("Content-Length", intToStr length)]⟩

/-- stream_video of app.py lines 1033-1082.  The session is modelled as an
optional current user id; the blob is looked up under the stored filename
of the metadata record (line 1043 joins it to the upload folder).  A
missing or empty Range header yields send_file; otherwise the range
branch runs. -/
def stream_video (st : ServerState) (session_user : Option String)
    (video_id : String) (range_header : Option String) : Except PyErr HttpResponse :=
  match session_user with
  | none => Except.ok ⟨401, strBytes "Unauthorized", []⟩
  | some _ =>
    match mlookup st.metadata video_id with
    | none => Except.ok ⟨404, strBytes "Video not found", []⟩
    | some v =>
      match dlookup st.disk v.filename with
      | none => Except.ok ⟨404, strBytes "Video file not found", []⟩
      | some data =>
        match range_header with
        | none => Except.ok (send_file data)
        | some hdr =>
          if hdr = "" then Except.ok (send_file data)
          else rangeResponse data hdr

/-- delete_video of app.py lines 1084-1106: auth check, existence check,
ownership check, then os.remove of the blob when it exists, deletion of
the metadata entry, and a confirmation message. -/
def delete_video (st : ServerState) (session_user : Option String)
    (video_id : String) : ServerState × HttpResponse :=
  match session_user with
  | none => (st, ⟨401, jsonObj [("error", "Unauthorized")], []⟩)
  | some uid =>
    match mlookup st.metadata video_id with
    | none => (st, ⟨404, jsonObj [("error", "Video not found")], []⟩)
    | some v =>
      if v.user_id ≠ uid then (st, ⟨403, jsonObj [("error", "Unauthorized")], []⟩)
      else
        let disk2 :=
          if (dlookup st.disk v.filename).isSome then ddel st.disk v.filename
          else st.disk
        (⟨mdel st.metadata video_id, disk2⟩,
          ⟨200, jsonObj [("message", "Video deleted successfully")], []⟩)

/-- The canonical single-range header bytes=start-end used by the claims. -/
def rangeHeader (s e : Nat) : String :=
  "bytes=" ++ natToStr s ++ "-" ++ natToStr e

/-- The canonical suffix-length header bytes=-N used by the claims. -/
def suffixHeader (n : Nat) : String := "bytes=-" ++ natToStr n

lemma pySplit_of_not_mem {sep : Char} {s : List Char} (h : sep ∉ s) :
    pySplit sep s = [s] := by
  induction s with
  | nil => rfl
  | cons c cs ih =>
    have hc : ¬ c = sep := fun hh => h (hh ▸ List.mem_cons_self c cs)
    have hcs : sep ∉ cs := fun hh => h (List.mem_cons_of_mem c hh)
    simp [pySplit, hc, ih hcs]

lemma pySplit_append {sep : Char} {xs ys : List Char} (h : sep ∉ xs) :
    pySplit sep (xs ++ sep :: ys) = xs :: pySplit sep ys := by
  induction xs with
  | nil => simp [pySplit]
  | cons c cs ih =>
    have hc : ¬ c = sep := fun hh => h (hh ▸ List.mem_cons_self c cs)
    have hcs : sep ∉ cs := fun hh => h (List.mem_cons_of_mem c hh)
    simp [pySplit, hc, ih hcs]

lemma isDigit_props {c : Char} (h : c.isDigit = true) :
    c.isWhitespace = false ∧ c ≠ '-' ∧ c ≠ '=' ∧ c ≠ '+' ∧ c ≠ '/' := by
  simp only [Char.isDigit] at h
  have h48 : 48 ≤ c.toNat := by
    have := (Bool.and_eq_true _ _).mp h |>.1
    simpa [Char.le_def] using this
  have h57 : c.toNat ≤ 57 := by
    have := (Bool.and_eq_true _ _).mp h |>.2
    simpa [Char.le_def] using this
  refine ⟨?_, ?_, ?_, ?_, ?_⟩
  · simp only [Char.isWhitespace]
    have h32 : ¬ c = ' ' := fun hh => absurd h48 (by subst hh; decide)
    have h9 : ¬ c = '\t' := fun hh => absurd h48 (by subst hh; decide)
    have h13 : ¬ c = '\x0d' := fun hh => absurd h48 (by subst hh; decide)
    have h10 : ¬ c = '\n' := fun hh => absurd h48 (by subst hh; decide)
    simp [h32, h9, h13, h10]
  · exact fun hh => absurd h48 (by subst hh; decide)
  · exact fun hh => absurd h57 (by subst hh; decide)
  · exact fun hh => absurd h48 (by subst hh; decide)
  · exact fun hh => absurd h48 (by subst hh; decide)

lemma digitChar_val {d : Nat} (h : d < 10) : charVal (digitChar d) = d := by
  interval_cases d <;> rfl

lemma digitChar_isDigit {d : Nat} (h : d < 10) : (digitChar d).isDigit = true := by
  interval_cases d <;> rfl

lemma natToCharsAux_spec :
    ∀ fuel n, n < fuel →
      (∀ c ∈ natToCharsAux fuel n, c.isDigit = true) ∧
      natToCharsAux fuel n ≠ [] ∧
      (natToCharsAux fuel n).foldl (fun a c => 10 * a + charVal c) 0 = n := by
  intro fuel
  induction fuel with
  | zero => intro n hn; omega
  | succ f ih =>
    intro n hn
    by_cases h10 : n < 10
    · refine ⟨?_, ?_, ?_⟩ <;> simp [natToCharsAux, h10, digitChar_isDigit, digitChar_val]
    · have hdiv : n / 10 < f := by
        have h1 : n / 10 < n := Nat.div_lt_self (by omega) (by omega)
        omega
      obtain ⟨ihd, ihne, ihval⟩ := ih (n / 10) hdiv
      refine ⟨?_, ?_, ?_⟩
      · intro c hc
        simp only [natToCharsAux, if_neg h10, List.mem_append, List.mem_singleton] at hc
        rcases hc with hc | hc
        · exact ihd c hc
        · subst hc; exact digitChar_isDigit (Nat.mod_lt _ (by omega))
      · simp [natToCharsAux, if_neg h10]
      · simp only [natToCharsAux, if_neg h10, List.foldl_append, List.foldl_cons,
          List.foldl_nil, ihval, digitChar_val (Nat.mod_lt n (show 0 < 10 by omega))]
        omega

lemma natToChars_all_digit {n : Nat} : ∀ c ∈ natToChars n, c.isDigit = true :=
  (natToCharsAux_spec (n + 1) n (Nat.lt_succ_self n)).1

lemma natToChars_ne_nil {n : Nat} : natToChars n ≠ [] :=
  (natToCharsAux_spec (n + 1) n (Nat.lt_succ_self n)).2.1

lemma natToChars_foldl {n : Nat} :
    (natToChars n).foldl (fun a c => 10 * a + charVal c) 0 = n :=
  (natToCharsAux_spec (n + 1) n (Nat.lt_succ_self n)).2.2

lemma decDigitsVal_natToChars {n : Nat} : decDigitsVal (natToChars n) = some n := by
  have hall : (natToChars n).all Char.isDigit = true := by
    rw [List.all_eq_true]; exact natToChars_all_digit
  simp [decDigitsVal, natToChars_ne_nil, hall, natToChars_foldl]

lemma dropWhile_eq_self_of {p : Char → Bool} {s : List Char}
    (h : ∀ c ∈ s, p c = false) : s.dropWhile p = s := by
  cases s with
  | nil => rfl
  | cons c cs => simp [List.dropWhile, h c (List.mem_cons_self c cs)]

lemma pyStripWs_of_digits {s : List Char} (h : ∀ c ∈ s, c.isDigit = true) :
    pyStripWs s = s := by
  have hw : ∀ c ∈ s, c.isWhitespace = false := fun c hc => (isDigit_props (h c hc)).1
  have h1 : s.dropWhile Char.isWhitespace = s := dropWhile_eq_self_of hw
  have h2 : s.reverse.dropWhile Char.isWhitespace = s.reverse :=
    dropWhile_eq_self_of (fun c hc => hw c (List.mem_reverse.mp hc))
  simp [pyStripWs, h1, h2]

lemma pyInt_natToChars {n : Nat} : pyInt (natToChars n) = Except.ok (n : Int) := by
  have hd := natToChars_all_digit (n := n)
  have hstrip : pyStripWs (natToChars n) = natToChars n := pyStripWs_of_digits hd
  obtain ⟨c, cs, hcons⟩ := List.exists_cons_of_ne_nil (natToChars_ne_nil (n := n))
  have hc : c.isDigit = true := hd c (by rw [hcons]; exact List.mem_cons_self c cs)
  have hh : (natToChars n).head? = some c := by rw [hcons]; rfl
  have hp : ((natToChars n).head? = some '+') = False := by
    rw [hh]; simp [(isDigit_props hc).2.2.2.1]
  have hm2 : ((natToChars n).head? = some '-') = False := by
    rw [hh]; simp [(isDigit_props hc).2.1]
  simp only [pyInt, hstrip, hp, hm2, if_false, decDigitsVal_natToChars]

lemma not_mem_natToChars_of_not_digit {n : Nat} {c : Char}
    (h : c.isDigit = false) : c ∉ natToChars n := fun hc => by
  have := natToChars_all_digit c hc
  rw [h] at this; exact Bool.noConfusion this

lemma intToStr_natCast {n : Nat} : intToStr (n : Int) = natToStr n := by
  have h1 : ¬ ((n : Int) < 0) := by omega
  simp [intToStr, natToStr, h1]

lemma pyIndex_pair_zero (a b : α) : pyIndex [a, b] 0 = Except.ok a := rfl

lemma pyIndex_pair_one (a b : α) : pyIndex [a, b] 1 = Except.ok b := rfl

lemma rangeHeader_data (s e : Nat) :
    (rangeHeader s e).data =
      "bytes".data ++ '=' :: (natToChars s ++ '-' :: natToChars e) := by
  simp only [rangeHeader, natToStr, String.data_append]
  simp [List.append_assoc]

lemma pySplit_eq_rangeHeader (s e : Nat) :
    pySplit '=' (rangeHeader s e).data =
      ["bytes".data, natToChars s ++ '-' :: natToChars e] := by
  have hsE : '=' ∉ natToChars s := not_mem_natToChars_of_not_digit (by decide)
  have heE : '=' ∉ natToChars e := not_mem_natToChars_of_not_digit (by decide)
  rw [rangeHeader_data, pySplit_append (by decide), pySplit_of_not_mem]
  intro hmem
  rcases List.mem_append.mp hmem with h | h
  · exact hsE h
  · rcases List.mem_cons.mp h with h | h
    · exact absurd h (by decide)
    · exact heE h

lemma pySplit_dash_rangeHeader (s e : Nat) :
    pySplit '-' (natToChars s ++ '-' :: natToChars e) =
      [natToChars s, natToChars e] := by
  have hsD : '-' ∉ natToChars s := not_mem_natToChars_of_not_digit (by decide)
  have heD : '-' ∉ natToChars e := not_mem_natToChars_of_not_digit (by decide)
  rw [pySplit_append hsD, pySplit_of_not_mem heD]

/-- The Range branch on a well-formed bytes=start-end header: no validity
check happens, the handler always builds the 206 response from the parsed
numbers. -/
lemma rangeResponse_rangeHeader (data : List Nat) (s e : Nat) :
    rangeResponse data (rangeHeader s e) =
      Except.ok ⟨206, seekRead data (s : Int) ((e : Int) - (s : Int) + 1),
        [("Content-Range",
           "bytes " ++ intToStr (s : Int) ++ "-" ++ intToStr (e : Int) ++ "/" ++
             intToStr (data.length : Int)),
         ("Accept-Ranges", "bytes"),
         ("Content-Length", intToStr ((e : Int) - (s : Int) + 1))]⟩ := by
  have hmemDash : '-' ∈ natToChars s ++ '-' :: natToChars e := by simp
  have hne : natToChars e ≠ [] := natToChars_ne_nil
  simp only [rangeResponse, pySplit_eq_rangeHeader, pyIndex_pair_one,
    pySplit_dash_rangeHeader, pyIndex_pair_zero, pyInt_natToChars, hmemDash,
    if_true, hne, ne_eq, not_false_eq_true, if_pos]

lemma suffixHeader_data (n : Nat) :
    (suffixHeader n).data = "bytes".data ++ '=' :: ('-' :: natToChars n) := by
  simp only [suffixHeader, natToStr, String.data_append]
  simp [List.append_assoc]

/-- The Range branch on a suffix-length bytes=-N header: the text before
the first dash is empty, so int() raises ValueError. -/
lemma rangeResponse_suffixHeader (data : List Nat) (n : Nat) :
    rangeResponse data (suffixHeader n) = Except.error PyErr.valueError := by
  have hE : '=' ∉ '-' :: natToChars n := by
    intro h
    rcases List.mem_cons.mp h with h | h
    · exact absurd h (by decide)
    · exact not_mem_natToChars_of_not_digit (by decide) h
  have hD : '-' ∉ natToChars n := not_mem_natToChars_of_not_digit (by decide)
  have h1 : pySplit '=' (suffixHeader n).data = ["bytes".data, '-' :: natToChars n] := by
    rw [suffixHeader_data, pySplit_append (by decide), pySplit_of_not_mem hE]
  have h2 : pySplit '-' ('-' :: natToChars n) = [[], natToChars n] := by
    have := @pySplit_append '-' [] (natToChars n) (by simp)
    simpa [pySplit_of_not_mem hD] using this
  simp only [rangeResponse, h1, pyIndex_pair_one, h2, pyIndex_pair_zero]
  rfl

/-- Any Except.ok result of the Range branch is the 206 response and
carries the Accept-Ranges header. -/
lemma rangeResponse_ok_inv {data : List Nat} {hdr : String} {resp : HttpResponse}
    (h : rangeResponse data hdr = Except.ok resp) :
    resp.status = 206 ∧ ("Accept-Ranges", "bytes") ∈ resp.headers := by
  simp only [rangeResponse] at h
  split at h
  · exact absurd h (by simp)
  · split at h
    · exact absurd h (by simp)
    · split at h
      · exact absurd h (by simp)
      · split at h
        · exact absurd h (by simp)
        · rw [Except.ok.injEq] at h
          subst h
          simp

lemma stream_video_found {st : ServerState} {u vid : String} {v : VideoRecord}
    {data : List Nat} (hm : mlookup st.metadata vid = some v)
    (hd : dlookup st.disk v.filename = some data) (hdr : Option String) :
    stream_video st (some u) vid hdr =
      match hdr with
      | none => Except.ok (send_file data)
      | some h => if h = "" then Except.ok (send_file data) else rangeResponse data h := by
  simp only [stream_video, hm, hd]

lemma rangeHeader_ne_empty (s e : Nat) : rangeHeader s e ≠ "" := by
  intro h
  have : (rangeHeader s e).data = [] := by rw [h]
  rw [rangeHeader_data] at this
  simp at this

lemma suffixHeader_ne_empty (n : Nat) : suffixHeader n ≠ "" := by
  intro h
  have : (suffixHeader n).data = [] := by rw [h]
  rw [suffixHeader_data] at this
  simp at this

lemma seekRead_natCast {data : List Nat} {s e : Nat} (hse : s ≤ e) :
    seekRead data (s : Int) ((e : Int) - (s : Int) + 1) =
      (data.drop s).take (e - s + 1) := by
  have h1 : ¬ ((e : Int) - (s : Int) + 1 < 0) := by omega
  have h2 : ((e : Int) - (s : Int) + 1).toNat = e - s + 1 := by omega
  simp [seekRead, h1, h2]

lemma intToStr_sub_add {s e : Nat} (hse : s ≤ e) :
    intToStr ((e : Int) - (s : Int) + 1) = natToStr (e - s + 1) := by
  have h : (e : Int) - (s : Int) + 1 = ((e - s + 1 : Nat) : Int) := by omega
  rw [h, intToStr_natCast]

lemma find?_append_single_of_none {m : Metadata} {k : String} {v : VideoRecord}
    (h : m.any (fun p => p.1 == k) = false) :
    (m ++ [(k, v)]).find? (fun p => p.1 == k) = some (k, v) := by
  induction m with
  | nil => simp
  | cons p rest ih =>
    simp only [List.any_cons, Bool.or_eq_false_iff] at h
    simp only [List.cons_append, List.find?_cons, h.1]
    exact ih h.2

lemma find?_map_set {m : Metadata} {k : String} {v : VideoRecord}
    (h : m.any (fun p => p.1 == k) = true) :
    (m.map (fun p => if p.1 == k then (k, v) else p)).find? (fun p => p.1 == k) =
      some (k, v) := by
  induction m with
  | nil => simp at h
  | cons p rest ih =>
    simp only [List.map_cons, List.find?_cons]
    by_cases hp : (p.1 == k) = true
    · rw [if_pos hp]
      simp
    · have hp2 : (p.1 == k) = false := Bool.eq_false_iff.mpr hp
      rw [if_neg hp]
      simp only [hp2]
      simp only [List.any_cons, hp2, Bool.false_or] at h
      exact ih h

lemma mlookup_mset_self (m : Metadata) (k : String) (v : VideoRecord) :
    mlookup (mset m k v) k = some v := by
  unfold mlookup mset
  by_cases h : m.any (fun p => p.1 == k)
  · rw [if_pos h, find?_map_set h]
    rfl
  · rw [if_neg h, find?_append_single_of_none (Bool.eq_false_iff.mpr h)]
    rfl

lemma mlookup_mdel_self (m : Metadata) (k : String) :
    mlookup (mdel m k) k = none := by
  unfold mlookup mdel
  rw [List.find?_eq_none.mpr]
  · rfl
  · intro p hp
    have := (List.mem_filter.mp hp).2
    simpa using this

lemma dlookup_ddel_self (d : Disk) (k : String) :
    dlookup (ddel d k) k = none := by
  unfold dlookup ddel
  rw [List.find?_eq_none.mpr]
  · rfl
  · intro p hp
    have := (List.mem_filter.mp hp).2
    simpa using this

lemma data_mk (l : List Char) : (String.mk l).data = l := rfl

lemma stream_video_found_none {st : ServerState} {u vid : String} {v : VideoRecord}
    {data : List Nat} (hm : mlookup st.metadata vid = some v)
    (hd : dlookup st.disk v.filename = some data) :
    stream_video st (some u) vid none = Except.ok (send_file data) := by
  rw [stream_video_found hm hd]

lemma stream_video_found_some {st : ServerState} {u vid : String} {v : VideoRecord}
    {data : List Nat} (hm : mlookup st.metadata vid = some v)
    (hd : dlookup st.disk v.filename = some data) (h : String) :
    stream_video st (some u) vid (some h) =
      if h = "" then Except.ok (send_file data) else rangeResponse data h := by
  rw [stream_video_found hm hd]

/-- A concrete stored record used by the witnesses. -/
def demoRec : VideoRecord :=
  ⟨"v1", "a.mp4", "f1", "2025-01-01 10:00:00", "1.0 KB", "MP4", "alice"⟩

/-- A five-byte blob. -/
def demoData5 : List Nat := [10, 20, 30, 40, 50]

/-- Server state with one video of five bytes. -/
def demoState5 : ServerState := ⟨[("v1", demoRec)], [("f1", demoData5)]⟩

/-- Server state with one video of 500 bytes. -/
def demoState500 : ServerState := ⟨[("v1", demoRec)], [("f1", List.replicate 500 7)]⟩

/-- Server state with one video of 1000 bytes. -/
def demoState1000 : ServerState := ⟨[("v1", demoRec)], [("f1", List.replicate 1000 7)]⟩

/-- C1: for every blob of length L and every Range header bytes=start-end
with 0 <= start <= end < L, streaming an existing video (authenticated
caller, record and blob present) returns status 206, body exactly the blob
bytes at offsets start..end inclusive, header Content-Range equal to
bytes start-end/L, and Content-Length equal to end-start+1. -/
theorem C1_single_range_206 (st : ServerState) (u vid : String) (v : VideoRecord)
    (data : List Nat) (s e : Nat)
    (hm : mlookup st.metadata vid = some v)
    (hd : dlookup st.disk v.filename = some data)
    (hse : s ≤ e) (heL : e < data.length) :
    stream_video st (some u) vid (some (rangeHeader s e)) =
      Except.ok ⟨206, (data.drop s).take (e - s + 1),
        [("Content-Range",
           "bytes " ++ natToStr s ++ "-" ++ natToStr e ++ "/" ++ natToStr data.length),
         ("Accept-Ranges", "bytes"),
         ("Content-Length", natToStr (e - s + 1))]⟩ ∧
    ((data.drop s).take (e - s + 1)).length = e - s + 1 := by
  constructor
  · rw [stream_video_found_some hm hd, if_neg (rangeHeader_ne_empty s e),
      rangeResponse_rangeHeader, seekRead_natCast hse, intToStr_natCast,
      intToStr_natCast, intToStr_natCast, intToStr_sub_add hse]
  · rw [List.length_take, List.length_drop]
    omega

/-- Witness for C1 at start=1, end=3, L=5. -/
theorem C1_witness :
    stream_video demoState5 (some "bob") "v1" (some (rangeHeader 1 3)) =
      Except.ok ⟨206, [20, 30, 40],
        [("Content-Range", "bytes 1-3/5"), ("Accept-Ranges", "bytes"),
         ("Content-Length", "3")]⟩ := by
  have h := C1_single_range_206 demoState5 "bob" "v1" demoRec demoData5 1 3
    (by rfl) (by rfl) (by decide) (by decide)
  exact h.1

/-- C2 counterexample: with a 1000-byte blob, the header bytes=-100 makes
the handler raise ValueError (int of the empty string before the dash), so
the response is not the claimed 206 carrying the last 100 bytes. -/
theorem C2_counterexample :
    stream_video demoState1000 (some "bob") "v1" (some "bytes=-100") =
      Except.error PyErr.valueError ∧
    stream_video demoState1000 (some "bob") "v1" (some "bytes=-100") ≠
      Except.ok ⟨206, List.replicate 100 7,
        [("Content-Range", "bytes 900-999/1000"), ("Accept-Ranges", "bytes"),
         ("Content-Length", "100")]⟩ := by
  have h1 : stream_video demoState1000 (some "bob") "v1" (some "bytes=-100") =
      Except.error PyErr.valueError := by
    have he : ("bytes=-100" : String) = suffixHeader 100 := by rfl
    rw [he, @stream_video_found_some demoState1000 "bob" "v1" demoRec
      (List.replicate 1000 7) (by rfl) (by rfl) (suffixHeader 100),
      if_neg (suffixHeader_ne_empty 100), rangeResponse_suffixHeader]
  exact ⟨h1, fun h => by rw [h1] at h; exact Except.noConfusion h⟩

/-- C2 (amended): a suffix-length Range header bytes=-N on an existing
video is not resolved to the last N bytes; the split before the dash is
the empty string, int() raises ValueError, and the request fails with an
unhandled exception instead of a 206 response. -/
theorem C2_suffix_range_raises (st : ServerState) (u vid : String) (v : VideoRecord)
    (data : List Nat) (N : Nat)
    (hm : mlookup st.metadata vid = some v)
    (hd : dlookup st.disk v.filename = some data) :
    stream_video st (some u) vid (some (suffixHeader N)) =
      Except.error PyErr.valueError := by
  rw [stream_video_found_some hm hd, if_neg (suffixHeader_ne_empty N),
    rangeResponse_suffixHeader]

/-- Witness for the amended C2 at N=2, L=5. -/
theorem C2_witness :
    stream_video demoState5 (some "bob") "v1" (some (suffixHeader 2)) =
      Except.error PyErr.valueError :=
  C2_suffix_range_raises demoState5 "bob" "v1" demoRec demoData5 2 (by rfl) (by rfl)

set_option maxRecDepth 8000 in
/-- C3 counterexample: Range bytes=1000-2000 against a 500-byte blob is
answered with status 206 and an empty body, not with the claimed 416. -/
theorem C3_counterexample :
    stream_video demoState500 (some "bob") "v1" (some (rangeHeader 1000 2000)) =
      Except.ok ⟨206, [],
        [("Content-Range", "bytes 1000-2000/500"), ("Accept-Ranges", "bytes"),
         ("Content-Length", "1001")]⟩ ∧
    (206 : Nat) ≠ 416 := by
  exact ⟨by rfl, by decide⟩

/-- C3 (amended): the handler has no satisfiability check and no 416 path:
for a bytes=start-end header whose bounds are unsatisfiable in any of the
claimed senses (start > end, start >= L, or L = 0), it still answers 206
with Content-Range bytes start-end/L, the body being whatever bytes the
seek-and-read yields; when start >= L the body is empty. -/
theorem C3_no_416_on_unsatisfiable (st : ServerState) (u vid : String)
    (v : VideoRecord) (data : List Nat) (s e : Nat)
    (hm : mlookup st.metadata vid = some v)
    (hd : dlookup st.disk v.filename = some data)
    (hcase : e < s ∨ data.length ≤ s ∨ data.length = 0) :
    stream_video st (some u) vid (some (rangeHeader s e)) =
      Except.ok ⟨206, seekRead data (s : Int) ((e : Int) - (s : Int) + 1),
        [("Content-Range",
           "bytes " ++ intToStr (s : Int) ++ "-" ++ intToStr (e : Int) ++ "/" ++
             intToStr (data.length : Int)),
         ("Accept-Ranges", "bytes"),
         ("Content-Length", intToStr ((e : Int) - (s : Int) + 1))]⟩ ∧
    (data.length ≤ s → seekRead data (s : Int) ((e : Int) - (s : Int) + 1) = []) := by
  constructor
  · rw [stream_video_found_some hm hd, if_neg (rangeHeader_ne_empty s e),
      rangeResponse_rangeHeader]
  · intro hLs
    have hdrop : data.drop s = [] := List.drop_eq_nil_of_le hLs
    simp [seekRead, hdrop]

/-- Witness for the amended C3 at start=10, end=20, L=5. -/
theorem C3_witness :
    stream_video demoState5 (some "bob") "v1" (some (rangeHeader 10 20)) =
      Except.ok ⟨206, seekRead demoData5 (10 : Int) ((20 : Int) - (10 : Int) + 1),
        [("Content-Range",
           "bytes " ++ intToStr (10 : Int) ++ "-" ++ intToStr (20 : Int) ++ "/" ++
             intToStr (demoData5.length : Int)),
         ("Accept-Ranges", "bytes"),
         ("Content-Length", intToStr ((20 : Int) - (10 : Int) + 1))]⟩ ∧
    (demoData5.length ≤ 10 → seekRead demoData5 (10 : Int) ((20 : Int) - (10 : Int) + 1) = []) :=
  C3_no_416_on_unsatisfiable demoState5 "bob" "v1" demoRec demoData5 10 20
    (by rfl) (by rfl) (Or.inr (Or.inl (by decide)))

/-- C4 counterexample: a Range header with non-numeric bounds on an
existing video raises ValueError; the response is neither the claimed 200
full-content one nor any response at all. -/
theorem C4_counterexample :
    stream_video demoState5 (some "bob") "v1" (some "bytes=abc-def") =
      Except.error PyErr.valueError ∧
    stream_video demoState5 (some "bob") "v1" (some "bytes=abc-def") ≠
      Except.ok ⟨200, demoData5, [("Accept-Ranges", "bytes")]⟩ := by
  have h1 : stream_video demoState5 (some "bob") "v1" (some "bytes=abc-def") =
      Except.error PyErr.valueError := by rfl
  exact ⟨h1, fun h => by rw [h1] at h; exact Except.noConfusion h⟩

/-- C4 (amended): malformed Range headers are not treated as absent.  On an
existing video, non-numeric bounds raise ValueError, a value without an
equals sign raises IndexError, a multi-range list raises ValueError when
int() meets the text between the dashes, and a unit other than bytes is
never checked: the range is honored as though the unit were bytes, giving
a 206 partial response instead of the full 200 one. -/
theorem C4_malformed_not_ignored (st : ServerState) (u vid : String)
    (v : VideoRecord) (data : List Nat)
    (hm : mlookup st.metadata vid = some v)
    (hd : dlookup st.disk v.filename = some data) :
    stream_video st (some u) vid (some "bytes=abc-def") =
      Except.error PyErr.valueError ∧
    stream_video st (some u) vid (some "bytes 0-100") =
      Except.error PyErr.indexError ∧
    stream_video st (some u) vid (some "bytes=0-50, 100-150") =
      Except.error PyErr.valueError ∧
    stream_video st (some u) vid (some "items=1-3") =
      Except.ok ⟨206, (data.drop 1).take 3,
        [("Content-Range", "bytes 1-3/" ++ intToStr (data.length : Int)),
         ("Accept-Ranges", "bytes"),
         ("Content-Length", "3")]⟩ := by
  refine ⟨?_, ?_, ?_, ?_⟩ <;> rw [stream_video_found_some hm hd] <;> rfl

/-- Witness for the amended C4 on the five-byte demo state. -/
theorem C4_witness :
    stream_video demoState5 (some "bob") "v1" (some "bytes=abc-def") =
      Except.error PyErr.valueError ∧
    stream_video demoState5 (some "bob") "v1" (some "bytes 0-100") =
      Except.error PyErr.indexError ∧
    stream_video demoState5 (some "bob") "v1" (some "bytes=0-50, 100-150") =
      Except.error PyErr.valueError ∧
    stream_video demoState5 (some "bob") "v1" (some "items=1-3") =
      Except.ok ⟨206, (demoData5.drop 1).take 3,
        [("Content-Range", "bytes 1-3/" ++ intToStr (demoData5.length : Int)),
         ("Accept-Ranges", "bytes"),
         ("Content-Length", "3")]⟩ :=
  C4_malformed_not_ignored demoState5 "bob" "v1" demoRec demoData5 (by rfl) (by rfl)

/-- The unique on-disk name built at app.py line 986:
user id, timestamp and sanitized filename joined by underscores; it is
also used as the video id (line 993). -/
def stored_name (uid timestamp fname : String) : String :=
  uid ++ "_" ++ timestamp ++ "_" ++ fname

/-- The metadata record built by upload_video at lines 994-1002. -/
def uploaded_record (uid timestamp now_str size_str fname : String)
    (ext : List Char) : VideoRecord :=
  ⟨stored_name uid timestamp fname, fname, stored_name uid timestamp fname,
    now_str, size_str, String.mk (ext.map Char.toUpper), uid⟩

/-- C5 counterexample state: the store already holds a record under the id
that the demonstrated upload will produce. -/
def C5old : VideoRecord :=
  ⟨"u1_20250101_000000_a.mp4", "OLD TITLE", "oldfile", "2024-12-31 00:00:00",
    "9.9 MB", "AVI", "eve"⟩

/-- Store containing only the record of C5old. -/
def C5st : ServerState := ⟨[("u1_20250101_000000_a.mp4", C5old)], []⟩

/-- The record the demonstrated upload writes over C5old. -/
def C5new : VideoRecord :=
  ⟨"u1_20250101_000000_a.mp4", "a.mp4", "u1_20250101_000000_a.mp4",
    "2025-01-01 00:00:00", "2.0 B", "MP4", "u1"⟩

/-- C5 counterexample: an upload whose generated id equals an existing
record id succeeds with 200 and silently replaces the stored record; no
error is reported and the old record is gone. -/
theorem C5_counterexample :
    upload_video C5st (some "u1") (some ("a.mp4", [1, 2])) "20250101_000000"
        "2025-01-01 00:00:00" "2.0 B" =
      Except.ok
        (⟨[("u1_20250101_000000_a.mp4", C5new)], [("u1_20250101_000000_a.mp4", [1, 2])]⟩,
         ⟨200, jsonObj [("message", "Video uploaded successfully"),
            ("id", "u1_20250101_000000_a.mp4")], []⟩) ∧
    C5new ≠ C5old ∧
    mlookup [("u1_20250101_000000_a.mp4", C5new)] "u1_20250101_000000_a.mp4" ≠ some C5old := by
  refine ⟨by rfl, by decide, by decide⟩

/-- C5 (amended): the metadata insert of upload_video is a plain dict
assignment: when the produced id already names a record, the upload still
reports success (200) and the store afterwards maps that id to the new
record, silently replacing the old one. -/
theorem C5_duplicate_id_overwrites (st : ServerState)
    (uid orig timestamp now_str size_str : String) (contents : List Nat)
    (old : VideoRecord) (ext : List Char)
    (h0 : ¬ orig = "")
    (h1 : allowed_file orig = true)
    (hext : pyIndex (pyRsplit1 '.' (secure_filename orig.data)) 1 = Except.ok ext)
    (hold : mlookup st.metadata
      (stored_name uid timestamp (String.mk (secure_filename orig.data))) = some old) :
    upload_video st (some uid) (some (orig, contents)) timestamp now_str size_str =
      Except.ok
        (⟨mset st.metadata (stored_name uid timestamp (String.mk (secure_filename orig.data)))
            (uploaded_record uid timestamp now_str size_str
              (String.mk (secure_filename orig.data)) ext),
          dset st.disk (stored_name uid timestamp (String.mk (secure_filename orig.data)))
            contents⟩,
         ⟨200, jsonObj [("message", "Video uploaded successfully"),
            ("id", stored_name uid timestamp (String.mk (secure_filename orig.data)))], []⟩) ∧
    mlookup
      (mset st.metadata (stored_name uid timestamp (String.mk (secure_filename orig.data)))
        (uploaded_record uid timestamp now_str size_str
          (String.mk (secure_filename orig.data)) ext))
      (stored_name uid timestamp (String.mk (secure_filename orig.data))) =
      some (uploaded_record uid timestamp now_str size_str
        (String.mk (secure_filename orig.data)) ext) := by
  constructor
  · simp only [upload_video, data_mk]
    rw [if_neg h0, if_neg (not_not_intro h1), hext]
    rfl
  · exact mlookup_mset_self _ _ _

/-- Witness for the amended C5: the concrete collision of C5st. -/
theorem C5_witness :
    upload_video C5st (some "u1") (some ("a.mp4", [1, 2])) "20250101_000000"
        "2025-01-01 00:00:00" "2.0 B" =
      Except.ok
        (⟨mset C5st.metadata
            (stored_name "u1" "20250101_000000" (String.mk (secure_filename "a.mp4".data)))
            (uploaded_record "u1" "20250101_000000" "2025-01-01 00:00:00" "2.0 B"
              (String.mk (secure_filename "a.mp4".data)) "mp4".data),
          dset C5st.disk
            (stored_name "u1" "20250101_000000" (String.mk (secure_filename "a.mp4".data)))
            [1, 2]⟩,
         ⟨200, jsonObj [("message", "Video uploaded successfully"),
            ("id", stored_name "u1" "20250101_000000"
              (String.mk (secure_filename "a.mp4".data)))], []⟩) ∧
    mlookup
      (mset C5st.metadata
        (stored_name "u1" "20250101_000000" (String.mk (secure_filename "a.mp4".data)))
        (uploaded_record "u1" "20250101_000000" "2025-01-01 00:00:00" "2.0 B"
          (String.mk (secure_filename "a.mp4".data)) "mp4".data))
      (stored_name "u1" "20250101_000000" (String.mk (secure_filename "a.mp4".data))) =
      some (uploaded_record "u1" "20250101_000000" "2025-01-01 00:00:00" "2.0 B"
        (String.mk (secure_filename "a.mp4".data)) "mp4".data) :=
  C5_duplicate_id_overwrites C5st "u1" "a.mp4" "20250101_000000" "2025-01-01 00:00:00"
    "2.0 B" [1, 2] C5old "mp4".data (by decide) (by rfl) (by rfl) (by rfl)

/-- C6: delete_video returns 404 when the id is unknown; returns 403 and
leaves both the store and the disk untouched when the caller is not the
owner; and, for the owner, returns the confirmation message while removing
both the metadata record and the blob file. -/
theorem C6_delete_ownership (st : ServerState) (u vid : String) :
    (mlookup st.metadata vid = none →
      delete_video st (some u) vid =
        (st, ⟨404, jsonObj [("error", "Video not found")], []⟩)) ∧
    (∀ v, mlookup st.metadata vid = some v → v.user_id ≠ u →
      delete_video st (some u) vid =
        (st, ⟨403, jsonObj [("error", "Unauthorized")], []⟩)) ∧
    (∀ v, mlookup st.metadata vid = some v → v.user_id = u →
      (delete_video st (some u) vid).2 =
        ⟨200, jsonObj [("message", "Video deleted successfully")], []⟩ ∧
      mlookup (delete_video st (some u) vid).1.metadata vid = none ∧
      dlookup (delete_video st (some u) vid).1.disk v.filename = none) := by
  refine ⟨?_, ?_, ?_⟩
  · intro h
    simp only [delete_video, h]
  · intro v hv hne
    simp only [delete_video, hv]
    rw [if_pos hne]
  · intro v hv heq
    simp only [delete_video, hv]
    rw [if_neg (not_not_intro heq)]
    refine ⟨rfl, mlookup_mdel_self _ _, ?_⟩
    by_cases hb : (dlookup st.disk v.filename).isSome
    · simp only [if_pos hb]
      exact dlookup_ddel_self _ _
    · simp only [if_neg hb]
      exact Option.not_isSome_iff_eq_none.mp hb

/-- Second record for the C6 witness, owned by alice. -/
def C6st : ServerState := ⟨[("v1", demoRec)], [("f1", demoData5)]⟩

/-- Witness for C6: unknown id gives 404; eve cannot delete alice's video
and nothing changes; alice's delete removes record and blob. -/
theorem C6_witness :
    (delete_video C6st (some "bob") "nope" =
      (C6st, ⟨404, jsonObj [("error", "Video not found")], []⟩)) ∧
    (delete_video C6st (some "eve") "v1" =
      (C6st, ⟨403, jsonObj [("error", "Unauthorized")], []⟩)) ∧
    ((delete_video C6st (some "alice") "v1").2 =
      ⟨200, jsonObj [("message", "Video deleted successfully")], []⟩ ∧
    mlookup (delete_video C6st (some "alice") "v1").1.metadata "v1" = none ∧
    dlookup (delete_video C6st (some "alice") "v1").1.disk demoRec.filename = none) :=
  ⟨(C6_delete_ownership C6st "bob" "nope").1 (by rfl),
   (C6_delete_ownership C6st "eve" "v1").2.1 demoRec (by rfl) (by decide),
   (C6_delete_ownership C6st "alice" "v1").2.2 demoRec (by rfl) (by rfl)⟩

/-- C7: a stream request whose id has a metadata record but whose blob is
absent returns 404 without raising, with a body distinct from the 404 body
of the record-missing case, so the two conditions are distinguishable. -/
theorem C7_blob_missing_distinct_404 (st : ServerState) (u vid : String)
    (hdr : Option String) :
    (mlookup st.metadata vid = none →
      stream_video st (some u) vid hdr =
        Except.ok ⟨404, strBytes "Video not found", []⟩) ∧
    (∀ v, mlookup st.metadata vid = some v → dlookup st.disk v.filename = none →
      stream_video st (some u) vid hdr =
        Except.ok ⟨404, strBytes "Video file not found", []⟩) ∧
    strBytes "Video file not found" ≠ strBytes "Video not found" := by
  refine ⟨?_, ?_, by decide⟩
  · intro h
    simp only [stream_video, h]
  · intro v hv hb
    simp only [stream_video, hv, hb]

/-- State with a metadata record whose blob is missing from disk. -/
def C7st : ServerState := ⟨[("v1", demoRec)], []⟩

/-- Witness for C7: record present, blob absent, 404 with the distinct
file-missing body; unknown id gives the record-missing body. -/
theorem C7_witness :
    (stream_video C7st (some "bob") "nope" none =
      Except.ok ⟨404, strBytes "Video not found", []⟩) ∧
    (stream_video C7st (some "bob") "v1" none =
      Except.ok ⟨404, strBytes "Video file not found", []⟩) ∧
    strBytes "Video file not found" ≠ strBytes "Video not found" :=
  ⟨(C7_blob_missing_distinct_404 C7st "bob" "nope" none).1 (by rfl),
   (C7_blob_missing_distinct_404 C7st "bob" "v1" none).2.1 demoRec (by rfl) (by rfl),
   (C7_blob_missing_distinct_404 C7st "bob" "v1" none).2.2⟩

/-- C8: every response the stream operation produces for an existing video
(authenticated caller, record and blob present) carries the header
Accept-Ranges: bytes, including the 200 full-body response served when no
Range header is present. -/
theorem C8_accept_ranges_always (st : ServerState) (u vid : String)
    (v : VideoRecord) (data : List Nat) (hdr : Option String)
    (resp : HttpResponse)
    (hm : mlookup st.metadata vid = some v)
    (hd : dlookup st.disk v.filename = some data)
    (hres : stream_video st (some u) vid hdr = Except.ok resp) :
    ("Accept-Ranges", "bytes") ∈ resp.headers := by
  cases hdr with
  | none =>
    rw [stream_video_found_none hm hd] at hres
    injection hres with h2
    rw [← h2]
    simp [send_file]
  | some h =>
    rw [stream_video_found_some hm hd] at hres
    by_cases he : h = ""
    · rw [if_pos he] at hres
      injection hres with h2
      rw [← h2]
      simp [send_file]
    · rw [if_neg he] at hres
      exact (rangeResponse_ok_inv hres).2

/-- Witness for C8: the no-Range 200 response on the demo state carries
Accept-Ranges: bytes. -/
theorem C8_witness : ("Accept-Ranges", "bytes") ∈ (send_file demoData5).headers :=
  C8_accept_ranges_always demoState5 "bob" "v1" demoRec demoData5 none
    (send_file demoData5) (by rfl) (by rfl) (by rfl)

lemma secure_filename_allowed {s : List Char} :
    ∀ c ∈ secure_filename s, allowedFilenameChar c = true := by
  intro c hc
  simp only [secure_filename, pyStripChars] at hc
  rw [List.mem_reverse] at hc
  have h1 := (List.dropWhile_sublist _).subset hc
  rw [List.mem_reverse] at h1
  have h2 := (List.dropWhile_sublist _).subset h1
  exact (List.mem_filter.mp h2).2

/-- C9: the on-disk filename component built by upload_video (user id,
timestamp and werkzeug-sanitized original name joined by underscores)
contains no path separator and no dot-dot segment, for every
caller-supplied original filename; so uploads cannot address files outside
the upload directory.  The user id and timestamp are server-generated from
the safe character set (register builds user_N_YYYYmmddHHMMSS ids and
strftime emits digits and underscores), which the two hypotheses record. -/
theorem C9_stored_filename_sanitized (uid ts original : String)
    (hu : ∀ c ∈ uid.data, allowedFilenameChar c = true)
    (ht : ∀ c ∈ ts.data, allowedFilenameChar c = true) :
    '/' ∉ (stored_name uid ts (String.mk (secure_filename original.data))).data ∧
    '\\' ∉ (stored_name uid ts (String.mk (secure_filename original.data))).data ∧
    ∀ seg ∈ pySplit '/' (stored_name uid ts (String.mk (secure_filename original.data))).data,
      seg ≠ ['.', '.'] := by
  have hdata : (stored_name uid ts (String.mk (secure_filename original.data))).data =
      uid.data ++ '_' :: (ts.data ++ '_' :: secure_filename original.data) := by
    simp [stored_name, String.data_append, List.append_assoc]
  have hgen : ∀ c : Char, allowedFilenameChar c = false →
      c ∉ (stored_name uid ts (String.mk (secure_filename original.data))).data := by
    intro c hcF hmem
    rw [hdata] at hmem
    simp only [List.mem_append, List.mem_cons] at hmem
    rcases hmem with h | h | h | h | h
    · rw [hu c h] at hcF; exact Bool.noConfusion hcF
    · subst h; exact Bool.noConfusion hcF
    · rw [ht c h] at hcF; exact Bool.noConfusion hcF
    · subst h; exact Bool.noConfusion hcF
    · rw [secure_filename_allowed c h] at hcF; exact Bool.noConfusion hcF
  have hslash := hgen '/' (by decide)
  refine ⟨hslash, hgen '\\' (by decide), ?_⟩
  intro seg hseg
  rw [pySplit_of_not_mem hslash, List.mem_singleton] at hseg
  subst hseg
  intro hdd
  have hund : '_' ∈ (stored_name uid ts (String.mk (secure_filename original.data))).data := by
    rw [hdata]; simp
  rw [hdd] at hund
  simp at hund

/-- Witness for C9: a traversal attempt as original filename, with the
register-format user id and an upload timestamp. -/
theorem C9_witness :
    '/' ∉ (stored_name "user_1_20250101000000" "20250101_000000"
      (String.mk (secure_filename "../../etc/passwd.mp4".data))).data ∧
    '\\' ∉ (stored_name "user_1_20250101000000" "20250101_000000"
      (String.mk (secure_filename "../../etc/passwd.mp4".data))).data ∧
    ∀ seg ∈ pySplit '/' (stored_name "user_1_20250101000000" "20250101_000000"
      (String.mk (secure_filename "../../etc/passwd.mp4".data))).data,
      seg ≠ ['.', '.'] :=
  C9_stored_filename_sanitized "user_1_20250101000000" "20250101_000000"
    "../../etc/passwd.mp4" (by decide) (by decide)

/-- C10: every object produced by get_all_videos for an authenticated
viewer carries, besides the documented view fields, the stored on-disk
filename and the raw owner id of the video, for every record in the
store. -/
theorem C10_view_exposes_internal_fields (st : ServerState)
    (users : List (String × String)) (u k : String) (v : VideoRecord)
    (hmem : (k, v) ∈ st.metadata) :
    ∃ obj ∈ get_all_videos st users (some u),
      ("filename", JVal.s v.filename) ∈ obj ∧
      ("user_id", JVal.s v.user_id) ∈ obj ∧
      ("id", JVal.s v.id) ∈ obj := by
  refine ⟨video_view users u v, ?_, ?_, ?_, ?_⟩
  · simp only [get_all_videos]
    rw [List.mem_mergeSort]
    exact List.mem_map_of_mem _ hmem
  · simp [video_view, record_pairs]
  · simp [video_view, record_pairs]
  · simp [video_view, record_pairs]

/-- Witness for C10 on the demo state. -/
theorem C10_witness :
    ∃ obj ∈ get_all_videos demoState5 [("alice", "Alice")] (some "bob"),
      ("filename", JVal.s demoRec.filename) ∈ obj ∧
      ("user_id", JVal.s demoRec.user_id) ∈ obj ∧
      ("id", JVal.s demoRec.id) ∈ obj :=
  C10_view_exposes_internal_fields demoState5 [("alice", "Alice")] "bob" "v1" demoRec
    (by decide)
